import Mathlib

/-!
# Visitor-counter device configuration (`arduino_config.h`)

The header is a table of object-like preprocessor definitions: four string
literals and eleven decimal integer literals, inside an include guard.  Each
definition is embedded below under the name the header gives it, with the
literal the header gives it; integer literals are mathematical integers
(`Int`), string literals are `String`.  The two Telegram definitions are
commented out in the header and therefore have no counterpart here.
-/

namespace ArduinoConfig

/-! ## The definitions of the header, line by line -/

/-- Line 10: `#define WIFI_SSID "YOUR_WIFI_SSID"`. -/
def WIFI_SSID : String := "YOUR_WIFI_SSID"

/-- Line 11: `#define WIFI_PASSWORD "YOUR_WIFI_PASSWORD"`. -/
def WIFI_PASSWORD : String := "YOUR_WIFI_PASSWORD"

/-- Line 14: `#define SERVER_HOST "192.168.2.183"`. -/
def SERVER_HOST : String := "192.168.2.183"

/-- Line 15: `#define SERVER_PORT 5000`. -/
def SERVER_PORT : Int := 5000

/-- Line 18: `#define DEVICE_ID "ARDUINO_001"`. -/
def DEVICE_ID : String := "ARDUINO_001"

/-- Line 21: `#define MEASUREMENT_INTERVAL 100` (milliseconds). -/
def MEASUREMENT_INTERVAL : Int := 100

/-- Line 22: `#define SEND_INTERVAL 60000` (milliseconds). -/
def SEND_INTERVAL : Int := 60000

/-- Line 25: `#define ZONE_THRESHOLD_CM 160` (zone entry threshold). -/
def ZONE_THRESHOLD_CM : Int := 160

/-- Line 26: `#define EXIT_THRESHOLD_CM 150` (zone exit threshold). -/
def EXIT_THRESHOLD_CM : Int := 150

/-- Line 27: `#define MIN_DISTANCE_CM 10` (noise filter floor). -/
def MIN_DISTANCE_CM : Int := 10

/-- Line 30: `#define REQUIRED_CONSECUTIVE_MEASUREMENTS 3`. -/
def REQUIRED_CONSECUTIVE_MEASUREMENTS : Int := 3

/-- Line 33: `#define TRIG_PIN 3`. -/
def TRIG_PIN : Int := 3

/-- Line 34: `#define ECHO_PIN 2`. -/
def ECHO_PIN : Int := 2

/-- Line 37: `#define TIME_ZONE_OFFSET 3` (UTC+3). -/
def TIME_ZONE_OFFSET : Int := 3

/-- Line 40: `#define LOG_LEVEL 1` (0 minimum, 1 basic, 2 verbose). -/
def LOG_LEVEL : Int := 1

/-! ## The header as a table of definitions -/

/-- Replacement text of an object-like definition, as far as this header uses
the preprocessor: nothing at all (the include guard), one string literal, or
one decimal integer literal. -/
inductive Replacement where
  | empty : Replacement
  | text : String → Replacement
  | integer : Int → Replacement
  deriving DecidableEq, Repr

/-- Every active `#define` of the header, in source order (lines 7 to 40).
The commented-out Telegram lines 43 and 44 define nothing. -/
def defines : List (String × Replacement) :=
  [ ("CONFIG_H", Replacement.empty),
    ("WIFI_SSID", Replacement.text WIFI_SSID),
    ("WIFI_PASSWORD", Replacement.text WIFI_PASSWORD),
    ("SERVER_HOST", Replacement.text SERVER_HOST),
    ("SERVER_PORT", Replacement.integer SERVER_PORT),
    ("DEVICE_ID", Replacement.text DEVICE_ID),
    ("MEASUREMENT_INTERVAL", Replacement.integer MEASUREMENT_INTERVAL),
    ("SEND_INTERVAL", Replacement.integer SEND_INTERVAL),
    ("ZONE_THRESHOLD_CM", Replacement.integer ZONE_THRESHOLD_CM),
    ("EXIT_THRESHOLD_CM", Replacement.integer EXIT_THRESHOLD_CM),
    ("MIN_DISTANCE_CM", Replacement.integer MIN_DISTANCE_CM),
    ("REQUIRED_CONSECUTIVE_MEASUREMENTS",
      Replacement.integer REQUIRED_CONSECUTIVE_MEASUREMENTS),
    ("TRIG_PIN", Replacement.integer TRIG_PIN),
    ("ECHO_PIN", Replacement.integer ECHO_PIN),
    ("TIME_ZONE_OFFSET", Replacement.integer TIME_ZONE_OFFSET),
    ("LOG_LEVEL", Replacement.integer LOG_LEVEL) ]

/-- What the preprocessor substitutes for an identifier after the header has
been read: the replacement of its definition, or `none` when the header does
not define it. -/
def expand (name : String) : Option Replacement :=
  (defines.find? fun d => d.1 == name).map Prod.snd

/-- Whether an identifier is defined with a string literal. -/
def isText (name : String) : Bool :=
  match expand name with
  | some (Replacement.text _) => true
  | _ => false

/-- Whether an identifier is defined with an integer literal. -/
def isInteger (name : String) : Bool :=
  match expand name with
  | some (Replacement.integer _) => true
  | _ => false

/-- The fields of the data model whose semantic type is text. -/
def textFields : List String :=
  ["WIFI_SSID", "WIFI_PASSWORD", "SERVER_HOST", "DEVICE_ID"]

/-- The fields of the data model whose semantic type is integer. -/
def integerFields : List String :=
  ["SERVER_PORT", "MEASUREMENT_INTERVAL", "SEND_INTERVAL", "ZONE_THRESHOLD_CM",
   "EXIT_THRESHOLD_CM", "MIN_DISTANCE_CM", "REQUIRED_CONSECUTIVE_MEASUREMENTS",
   "TRIG_PIN", "ECHO_PIN", "TIME_ZONE_OFFSET", "LOG_LEVEL"]

/-! ## Predicates the properties are stated with -/

/-- The template prefix that marks a value still to be filled in. -/
def templateMark : String := "YOUR_"

/-- A placeholder is a text value that begins with the template prefix; an
integer or an empty replacement is never one. -/
def isPlaceholder : Replacement → Bool
  | Replacement.text s => templateMark.toList.isPrefixOf s.toList
  | _ => false

/-- The per-deployment fields, the ones to edit before building. -/
def deploymentFields : List String :=
  ["WIFI_SSID", "WIFI_PASSWORD", "SERVER_HOST", "SERVER_PORT", "DEVICE_ID"]

/-- Whether the named field is defined and its value is a placeholder. -/
def leftAsPlaceholder (name : String) : Bool :=
  match expand name with
  | some r => isPlaceholder r
  | none => false

/-- Membership in the range of a signed 16-bit `int`. -/
def fitsInt16 (n : Int) : Bool := decide (-32768 ≤ n ∧ n ≤ 32767)

/-- Reduction modulo 2^16 into the signed 16-bit range. -/
def wrapInt16 (n : Int) : Int := (n + 32768) % 65536 - 32768

/-- The integer values the header defines under a name other than the given
one, in source order. -/
def integersExcept (skip : String) : List Int :=
  defines.filterMap fun d =>
    match d.2 with
    | Replacement.integer n => if d.1 == skip then none else some n
    | _ => none

/-! ## Properties -/

/-- C1: the distance thresholds are in hysteresis order, the zone entry
threshold above the exit threshold, the exit threshold above the minimum
distance, and the minimum distance not negative. -/
theorem threshold_hysteresis_order :
    ZONE_THRESHOLD_CM > EXIT_THRESHOLD_CM ∧ EXIT_THRESHOLD_CM > MIN_DISTANCE_CM ∧
      MIN_DISTANCE_CM ≥ 0 := by
  decide

/-- C2: the measurement interval is positive and the send interval is not
shorter than the measurement interval. -/
theorem timing_intervals_ordered :
    MEASUREMENT_INTERVAL > 0 ∧ SEND_INTERVAL ≥ MEASUREMENT_INTERVAL := by
  decide

/-- C3: the debounce count is at least one. -/
theorem debounce_count_positive : REQUIRED_CONSECUTIVE_MEASUREMENTS ≥ 1 := by
  decide

/-- C4: the log level is one of the three documented levels 0, 1 and 2. -/
theorem log_level_documented : LOG_LEVEL ∈ ({0, 1, 2} : Set Int) := by
  simp [LOG_LEVEL]

/-- C5: the header defines all fifteen fields of the data model, the four text
fields with a string literal and the eleven integer fields with an integer
literal; the fifteen names are distinct and, with the include guard, they are
all the header defines. -/
theorem all_fields_defined_with_type :
    (textFields.all isText = true ∧ integerFields.all isInteger = true) ∧
      (textFields ++ integerFields).length = 15 ∧
      (textFields ++ integerFields).Nodup ∧
      (defines.map Prod.fst).Perm ("CONFIG_H" :: (textFields ++ integerFields)) ∧
      (expand "WIFI_SSID" = some (Replacement.text "YOUR_WIFI_SSID") ∧
       expand "WIFI_PASSWORD" = some (Replacement.text "YOUR_WIFI_PASSWORD") ∧
       expand "SERVER_HOST" = some (Replacement.text "192.168.2.183") ∧
       expand "DEVICE_ID" = some (Replacement.text "ARDUINO_001")) ∧
      (expand "SERVER_PORT" = some (Replacement.integer 5000) ∧
       expand "MEASUREMENT_INTERVAL" = some (Replacement.integer 100) ∧
       expand "SEND_INTERVAL" = some (Replacement.integer 60000) ∧
       expand "ZONE_THRESHOLD_CM" = some (Replacement.integer 160) ∧
       expand "EXIT_THRESHOLD_CM" = some (Replacement.integer 150) ∧
       expand "MIN_DISTANCE_CM" = some (Replacement.integer 10) ∧
       expand "REQUIRED_CONSECUTIVE_MEASUREMENTS" = some (Replacement.integer 3) ∧
       expand "TRIG_PIN" = some (Replacement.integer 3) ∧
       expand "ECHO_PIN" = some (Replacement.integer 2) ∧
       expand "TIME_ZONE_OFFSET" = some (Replacement.integer 3) ∧
       expand "LOG_LEVEL" = some (Replacement.integer 1)) := by
  refine ⟨⟨by decide, by decide⟩, by decide, by decide, ?_, ?_, ?_⟩
  · decide
  · decide
  · decide

/-- C6 as stated fails: the WiFi network name is still the template value
"YOUR_WIFI_SSID", so it is not true that no per-deployment field is left as a
placeholder. -/
theorem wifi_ssid_left_as_placeholder :
    expand "WIFI_SSID" = some (Replacement.text "YOUR_WIFI_SSID") ∧
      leftAsPlaceholder "WIFI_SSID" = true ∧
      ¬ (deploymentFields.all (fun name => !leftAsPlaceholder name) = true) := by
  decide

/-- C6 amended: all five per-deployment fields are defined; the server host,
the server port and the device identifier are not placeholders, and the two
fields that are left as placeholders are exactly the WiFi network name and the
WiFi password, with the template values "YOUR_WIFI_SSID" and
"YOUR_WIFI_PASSWORD". -/
theorem placeholders_are_the_wifi_credentials :
    deploymentFields.all (fun name => (expand name).isSome) = true ∧
      (leftAsPlaceholder "SERVER_HOST" = false ∧
       leftAsPlaceholder "SERVER_PORT" = false ∧
       leftAsPlaceholder "DEVICE_ID" = false) ∧
      deploymentFields.filter leftAsPlaceholder = ["WIFI_SSID", "WIFI_PASSWORD"] ∧
      WIFI_SSID = "YOUR_WIFI_SSID" ∧ WIFI_PASSWORD = "YOUR_WIFI_PASSWORD" := by
  refine ⟨by decide, by decide, by decide, by decide, by decide⟩

/-- C7: the thresholds are those of the example scenario, zone 160, exit 150
and minimum 10, and the debounce count is the scenario's 3 readings. -/
theorem example_scenario_values :
    ZONE_THRESHOLD_CM = 160 ∧ EXIT_THRESHOLD_CM = 150 ∧ MIN_DISTANCE_CM = 10 ∧
      REQUIRED_CONSECUTIVE_MEASUREMENTS = 3 := by
  decide

/-- C8: the trigger pin and the echo pin of the ultrasonic sensor are two
different pins, and neither pin number is negative. -/
theorem sensor_pins_distinct_nonneg :
    TRIG_PIN ≠ ECHO_PIN ∧ TRIG_PIN ≥ 0 ∧ ECHO_PIN ≥ 0 := by
  decide

/-- C9: the server port is a valid TCP port number, between 1 and 65535. -/
theorem server_port_valid : 1 ≤ SERVER_PORT ∧ SERVER_PORT ≤ 65535 := by
  decide

/-- C10: each of the ten integer constants other than the send interval lies
in the signed 16-bit range, and they are all the integers the header defines
besides it; the send interval lies above 32767 and at most 65535, so it is
outside the signed range, and its reduction modulo 2^16 into that range is the
negative number -5536. -/
theorem int16_range_of_integer_constants :
    (fitsInt16 SERVER_PORT = true ∧ fitsInt16 MEASUREMENT_INTERVAL = true ∧
     fitsInt16 ZONE_THRESHOLD_CM = true ∧ fitsInt16 EXIT_THRESHOLD_CM = true ∧
     fitsInt16 MIN_DISTANCE_CM = true ∧
     fitsInt16 REQUIRED_CONSECUTIVE_MEASUREMENTS = true ∧
     fitsInt16 TRIG_PIN = true ∧ fitsInt16 ECHO_PIN = true ∧
     fitsInt16 TIME_ZONE_OFFSET = true ∧ fitsInt16 LOG_LEVEL = true) ∧
      (integersExcept "SEND_INTERVAL" =
          [SERVER_PORT, MEASUREMENT_INTERVAL, ZONE_THRESHOLD_CM, EXIT_THRESHOLD_CM,
           MIN_DISTANCE_CM, REQUIRED_CONSECUTIVE_MEASUREMENTS, TRIG_PIN, ECHO_PIN,
           TIME_ZONE_OFFSET, LOG_LEVEL] ∧
       (integersExcept "SEND_INTERVAL").all fitsInt16 = true) ∧
      (32767 < SEND_INTERVAL ∧ SEND_INTERVAL ≤ 65535 ∧
       fitsInt16 SEND_INTERVAL = false) ∧
      (wrapInt16 SEND_INTERVAL = -5536 ∧ wrapInt16 SEND_INTERVAL < 0 ∧
       fitsInt16 (wrapInt16 SEND_INTERVAL) = true ∧
       (SEND_INTERVAL - wrapInt16 SEND_INTERVAL) % 65536 = 0) := by
  refine ⟨by decide, by decide, by decide, by decide⟩

end ArduinoConfig
